import Mathlib

/-!
Verification of the velanith/chatbot repository.

The repository has two parts:

* a React chat client (`src/frontend/chat-bot/src/app/page.tsx`) whose
  `handleSubmit` posts the pending input to a backend endpoint and appends
  either the reply or a fixed fallback message to the transcript;
* a PostgreSQL schema (`src/unnamed/part_000`) with three tables
  (`users`, `sessions`, `messages`), check constraints, cascading foreign
  keys and two trigger functions (`update_updated_at_column`,
  `update_session_message_count`).

This file gives a shallow embedding of both parts and proves the testable
properties stated in the repository specification.  One defect matters
throughout: the `CREATE FUNCTION update_session_message_count` statement
delimits its body with a bare `$` instead of `$$`, invalid PostgreSQL
dollar-quoting, so that function and the two message-count triggers are
never created.  The embedding therefore has two layers: the statements as
the script intends them (with the message-count trigger wired in, matching
the function body as written), and the `Installed` statements modelling
the schema that actually results (no message-count maintenance at all).
-/

namespace Chatbot

/-! ## Chat client (page.tsx, first `Home` variant)

State and message shapes follow the `Home` component: `messages` is the
transcript, `inputValue` the pending text, `sessionId` starts as `null`.
A fetch outcome is either a network error (the promise rejects) or a
response carrying the HTTP `ok` flag and the parsed JSON fields used by
the component (`content`, `session_id`).
-/

/-- Sender tag of a transcript entry (`Message.sender` in page.tsx). -/
inductive Sender where
  | user
  | bot
  deriving DecidableEq

/-- One entry of the chat transcript (`Message` in page.tsx). -/
structure ClientMessage where
  text : String
  sender : Sender
  deriving DecidableEq

/-- The React state of `Home` touched by `handleSubmit`. -/
structure ClientState where
  messages : List ClientMessage
  inputValue : String
  sessionId : Option String
  deriving DecidableEq

/-- JSON body posted to the chat endpoint; `session_id = none` means the
field is omitted (the spread `...(sessionId && \x7bsession_id\x7d)`). -/
structure RequestBody where
  role : String
  content : String
  session_id : Option String
  deriving DecidableEq

/-- Parsed JSON of a fetch response together with its HTTP `ok` flag. -/
structure FetchResponse where
  ok : Bool
  content : String
  session_id : Option String
  deriving DecidableEq

/-- Outcome of one `fetch` call: network failure or a response. -/
inductive FetchOutcome where
  | netError
  | response (r : FetchResponse)
  deriving DecidableEq

/-- JavaScript truthiness of a `string | null` value: `null` and the empty
string are falsy. -/
def truthyOpt : Option String → Bool
  | none => false
  | some s => !(s == "")

/-- The fixed fallback bot text from the catch block of `handleSubmit`. -/
def fallbackText : String := "Sorry, I couldn\x27t process your request. Please try again."

/-- JavaScript `String.prototype.trim`: strip whitespace from both ends. -/
def jsTrim (s : String) : String :=
  String.mk (((s.toList.dropWhile Char.isWhitespace).reverse.dropWhile Char.isWhitespace).reverse)

/-- Shallow embedding of `handleSubmit`.  The returned list collects the
request bodies sent during the call (empty when the guard returns early).
The `fetch` outcome is passed as a parameter, standing for the awaited
promise. -/
def handleSubmit (st : ClientState) (out : FetchOutcome) :
    ClientState × List RequestBody :=
  if jsTrim st.inputValue == "" then (st, [])
  else
    let afterUser : ClientState :=
      { st with
        messages := st.messages ++ [⟨st.inputValue, Sender.user⟩],
        inputValue := "" }
    let body : RequestBody :=
      ⟨"user", st.inputValue, if truthyOpt st.sessionId then st.sessionId else none⟩
    match out with
    | FetchOutcome.netError =>
        ({ afterUser with messages := afterUser.messages ++ [⟨fallbackText, Sender.bot⟩] },
         [body])
    | FetchOutcome.response r =>
        if r.ok then
          let sid : Option String :=
            if truthyOpt r.session_id && !truthyOpt afterUser.sessionId then
              r.session_id
            else afterUser.sessionId
          ({ afterUser with
             sessionId := sid,
             messages := afterUser.messages ++ [⟨r.content, Sender.bot⟩] },
           [body])
        else
          ({ afterUser with messages := afterUser.messages ++ [⟨fallbackText, Sender.bot⟩] },
           [body])

/-- One user interaction: the user types `inp` into the box and submits;
the fetch resolves to `out`. -/
def stepClient (st : ClientState) (inp : String) (out : FetchOutcome) :
    ClientState × List RequestBody :=
  handleSubmit { st with inputValue := inp } out

/-- Initial React state: empty transcript, empty input, `sessionId = null`. -/
def clientInit : ClientState := ⟨[], "", none⟩

/-- Run a sequence of interactions from a state. -/
def runClient (st : ClientState) : List (String × FetchOutcome) → ClientState
  | [] => st
  | (inp, out) :: tr => runClient (stepClient st inp out).1 tr

/-- A failed backend call: network error, or a response with a non-2xx
status (the `!response.ok` branch throws into the same catch block). -/
def failedOutcome : FetchOutcome → Bool
  | FetchOutcome.netError => true
  | FetchOutcome.response r => !r.ok

/-- Reachable shape of the client session id: still `null`, or a non-empty
string (the component only ever stores a truthy `data.session_id`). -/
def sessionIdOk (st : ClientState) : Prop :=
  st.sessionId = none ∨ ∃ s, st.sessionId = some s ∧ s ≠ ""

/-- Row of the `users` table. -/
structure UserRow where
  id : Nat
  username : String
  email : String
  password_hash : String
  is_active : Bool
  native_language : String
  target_language : String
  proficiency_level : String
  created_at : Nat
  updated_at : Nat
  deriving DecidableEq

/-- Row of the `sessions` table. -/
structure SessionRow where
  id : Nat
  user_id : Nat
  title : String
  session_type : String
  status : String
  source_language : String
  target_language : String
  message_count : Int
  mode : Option String
  level : Option String
  is_active : Bool
  summary : Option String
  created_at : Nat
  updated_at : Nat
  deriving DecidableEq

/-- Row of the `messages` table. -/
structure MessageRow where
  id : Nat
  session_id : Nat
  message_type : String
  content : String
  msg_metadata : Option String
  corrections : Option String
  micro_exercise : Option String
  role : Option String
  created_at : Nat
  deriving DecidableEq

/-- The three tables of the schema. -/
structure DB where
  users : List UserRow
  sessions : List SessionRow
  messages : List MessageRow
  deriving DecidableEq

/-- PostgreSQL `TRIM(s)`: strips the space character (and only the space
character) from both ends of the string. -/
def sqlTrim (s : String) : String :=
  String.mk (((s.toList.dropWhile (fun c => c == ' ')).reverse.dropWhile
    (fun c => c == ' ')).reverse)

/-- Character class `[A-Za-z0-9._%+-]` of the email check. -/
def localPartChar (c : Char) : Bool :=
  c.isAlpha || c.isDigit || c == '.' || c == '_' || c == '%' || c == '+' || c == '-'

/-- Character class `[A-Za-z0-9.-]` of the email check. -/
def domainChar (c : Char) : Bool :=
  c.isAlpha || c.isDigit || c == '.' || c == '-'

/-- CHECK `users_email_format`: matching of the anchored pattern
`[A-Za-z0-9._%+-]+@[A-Za-z0-9.-]+\.[A-Za-z]\x7b2,\x7d` (the classes
already contain both cases, so the case-insensitive flag is moot),
expressed as an existential over decompositions of the string. -/
def users_email_format (email : String) : Bool :=
  let cs := email.toList
  (List.range cs.length).any (fun i =>
    cs.getD i ' ' == '@' &&
    !(cs.take i).isEmpty && (cs.take i).all localPartChar &&
    (let rest := cs.drop (i + 1)
     (List.range rest.length).any (fun j =>
       rest.getD j ' ' == '.' &&
       !(rest.take j).isEmpty && (rest.take j).all domainChar &&
       decide (2 ≤ (rest.drop (j + 1)).length) && (rest.drop (j + 1)).all Char.isAlpha)))

/-- CHECK `users_username_length`. -/
def users_username_length (u : UserRow) : Bool := decide (3 ≤ u.username.length)

/-- CHECK `users_different_languages`. -/
def users_different_languages (u : UserRow) : Bool :=
  !(u.native_language == u.target_language)

/-- CHECK `users_valid_proficiency`. -/
def users_valid_proficiency (u : UserRow) : Bool :=
  ["beginner", "intermediate", "advanced", "native",
   "A1", "A2", "B1", "B2", "C1", "C2"].contains u.proficiency_level

/-- Conjunction of the `users` check constraints. -/
def userChecks (u : UserRow) : Bool :=
  users_username_length u && users_email_format u.email &&
    users_different_languages u && users_valid_proficiency u

/-- CHECK `sessions_valid_type`. -/
def sessions_valid_type (s : SessionRow) : Bool :=
  ["conversation", "grammar", "vocabulary", "pronunciation"].contains s.session_type

/-- CHECK `sessions_valid_status`. -/
def sessions_valid_status (s : SessionRow) : Bool :=
  ["active", "paused", "completed", "archived"].contains s.status

/-- CHECK `sessions_valid_mode` (`NULL` passes). -/
def sessions_valid_mode (s : SessionRow) : Bool :=
  match s.mode with
  | none => true
  | some m => ["CONVERSATION", "GRAMMAR", "VOCABULARY", "tutor", "buddy"].contains m

/-- CHECK `sessions_valid_level` (`NULL` passes). -/
def sessions_valid_level (s : SessionRow) : Bool :=
  match s.level with
  | none => true
  | some l => ["A1", "A2", "B1", "B2", "C1", "C2"].contains l

/-- Conjunction of the `sessions` check constraints. -/
def sessionChecks (s : SessionRow) : Bool :=
  sessions_valid_type s && sessions_valid_status s &&
    sessions_valid_mode s && sessions_valid_level s

/-- CHECK `messages_valid_type`. -/
def messages_valid_type (m : MessageRow) : Bool :=
  ["user", "assistant", "system"].contains m.message_type

/-- CHECK `messages_valid_role` (`NULL` passes). -/
def messages_valid_role (m : MessageRow) : Bool :=
  match m.role with
  | none => true
  | some r => ["USER", "ASSISTANT"].contains r

/-- CHECK `messages_content_not_empty`: `LENGTH(TRIM(content)) > 0`. -/
def messages_content_not_empty (m : MessageRow) : Bool :=
  decide (0 < (sqlTrim m.content).length)

/-- Conjunction of the `messages` check constraints. -/
def messageChecks (m : MessageRow) : Bool :=
  messages_valid_type m && messages_valid_role m && messages_content_not_empty m

/-- Pairwise distinctness of a key column (PRIMARY KEY / UNIQUE). -/
def uniqueKeys {α : Type} [BEq α] : List α → Bool
  | [] => true
  | x :: xs => !(xs.contains x) && uniqueKeys xs

/-! ### Trigger functions -/

/-- Trigger function `update_updated_at_column` on `users` rows: the
`BEFORE UPDATE` trigger sets `NEW.updated_at = NOW()` and returns `NEW`. -/
def update_updated_at_column_user (now : Nat) (new : UserRow) : UserRow :=
  { new with updated_at := now }

/-- Trigger function `update_updated_at_column` on `sessions` rows. -/
def update_updated_at_column_session (now : Nat) (new : SessionRow) : SessionRow :=
  { new with updated_at := now }

/-- Insert arm of `update_session_message_count`: `UPDATE sessions SET
message_count = message_count + 1, updated_at = NOW() WHERE id =
NEW.session_id`.  Transcribed from the function body as written; note that
the `CREATE FUNCTION` statement for this function delimits its body with a
bare `$` instead of `$$`, which is invalid PostgreSQL dollar-quoting, so
the statement fails and the database never actually creates this function
or the two triggers that call it.  This definition therefore captures the
INTENDED semantics visible in the source text, not installed behaviour;
the `Installed` statements below model what the schema actually does. -/
def update_session_message_count_insert (sid now : Nat) (ss : List SessionRow) :
    List SessionRow :=
  ss.map (fun s =>
    if s.id == sid then { s with message_count := s.message_count + 1, updated_at := now }
    else s)

/-- Delete arm of `update_session_message_count`: `UPDATE sessions SET
message_count = GREATEST(message_count - 1, 0), updated_at = NOW() WHERE
id = OLD.session_id`.  As with the insert arm, this transcribes the body
of a function whose `CREATE FUNCTION` fails (bare-`$` dollar-quoting), so
it is the intended, never-installed semantics. -/
def update_session_message_count_delete (sid now : Nat) (ss : List SessionRow) :
    List SessionRow :=
  ss.map (fun s =>
    if s.id == sid then
      { s with message_count := max (s.message_count - 1) 0, updated_at := now }
    else s)

/-! ### Statements

Each statement enforces the table's check constraints, key uniqueness and
foreign keys, and fires the triggers wired to it.  A constraint violation
makes the whole statement fail (`none`) and leaves the database unchanged.
The `AFTER INSERT` / `AFTER DELETE` triggers on `messages` run the update
above; the `BEFORE UPDATE` trigger on `sessions` fired by that inner
update would overwrite `updated_at` with the same `NOW()`, so its effect
is already accounted for.

These statements include the message-count trigger as the schema script
INTENDS to wire it.  Because the `CREATE FUNCTION
update_session_message_count` statement fails (bare-`$` dollar-quoting),
the installed schema lacks that trigger entirely; the `Installed`
variants further below model the schema that actually results.
-/

/-- `INSERT INTO users`. -/
def insertUser (u : UserRow) (db : DB) : Option DB :=
  if userChecks u &&
      !(db.users.any (fun v => v.id == u.id || v.username == u.username || v.email == u.email))
  then some { db with users := db.users ++ [u] }
  else none

/-- `INSERT INTO sessions` (foreign key `user_id REFERENCES users(id)`). -/
def insertSession (s : SessionRow) (db : DB) : Option DB :=
  if sessionChecks s && db.users.any (fun v => v.id == s.user_id) &&
      !(db.sessions.any (fun t => t.id == s.id))
  then some { db with sessions := db.sessions ++ [s] }
  else none

/-- `INSERT INTO messages`, firing the `AFTER INSERT` message-count
trigger on the owning session. -/
def insertMessage (m : MessageRow) (now : Nat) (db : DB) : Option DB :=
  if messageChecks m && db.sessions.any (fun t => t.id == m.session_id) &&
      !(db.messages.any (fun t => t.id == m.id))
  then some { db with
              messages := db.messages ++ [m],
              sessions := update_session_message_count_insert m.session_id now db.sessions }
  else none

/-- `DELETE FROM messages WHERE id = mid`, firing the `AFTER DELETE`
message-count trigger once per removed row. -/
def deleteMessage (mid now : Nat) (db : DB) : DB :=
  let removed := db.messages.filter (fun r => r.id == mid)
  { db with
    messages := db.messages.filter (fun r => !(r.id == mid)),
    sessions := removed.foldl
      (fun ss r => update_session_message_count_delete r.session_id now ss) db.sessions }

/-- `DELETE FROM sessions WHERE id = sid`: the `ON DELETE CASCADE` on
`messages.session_id` removes the session's messages, and the cascaded
row deletions fire the message-count trigger against the remaining
sessions (a no-op for the session just removed). -/
def deleteSession (sid now : Nat) (db : DB) : DB :=
  let removed := db.messages.filter (fun r => r.session_id == sid)
  { db with
    sessions := removed.foldl
      (fun ss r => update_session_message_count_delete r.session_id now ss)
      (db.sessions.filter (fun s => !(s.id == sid))),
    messages := db.messages.filter (fun r => !(r.session_id == sid)) }

/-- `DELETE FROM users WHERE id = uid`: cascades to the user's sessions
and from there to their messages. -/
def deleteUser (uid now : Nat) (db : DB) : DB :=
  let removedSessions := db.sessions.filter (fun s => s.user_id == uid)
  let removedMessages :=
    db.messages.filter (fun r => removedSessions.any (fun s => s.id == r.session_id))
  { users := db.users.filter (fun v => !(v.id == uid)),
    sessions := removedMessages.foldl
      (fun ss r => update_session_message_count_delete r.session_id now ss)
      (db.sessions.filter (fun s => !(s.user_id == uid))),
    messages := db.messages.filter
      (fun r => !(removedSessions.any (fun s => s.id == r.session_id))) }

/-- `UPDATE users SET ... WHERE id = uid`: each affected row goes through
the `BEFORE UPDATE` trigger `update_updated_at_column` and must satisfy
the check constraints and the unique keys. -/
def updateUser (uid : Nat) (f : UserRow → UserRow) (now : Nat) (db : DB) : Option DB :=
  let newUsers :=
    db.users.map (fun r => if r.id == uid then update_updated_at_column_user now (f r) else r)
  if (db.users.filter (fun r => r.id == uid)).all
        (fun r => userChecks (update_updated_at_column_user now (f r))) &&
      uniqueKeys (newUsers.map (fun r => r.id)) &&
      uniqueKeys (newUsers.map (fun r => r.username)) &&
      uniqueKeys (newUsers.map (fun r => r.email))
  then some { db with users := newUsers }
  else none

/-- `UPDATE sessions SET ... WHERE id = sid`, analogous to `updateUser`,
additionally re-checking the `user_id` foreign key of affected rows. -/
def updateSession (sid : Nat) (f : SessionRow → SessionRow) (now : Nat) (db : DB) :
    Option DB :=
  let newSessions :=
    db.sessions.map (fun s =>
      if s.id == sid then update_updated_at_column_session now (f s) else s)
  if (db.sessions.filter (fun s => s.id == sid)).all
        (fun s => sessionChecks (update_updated_at_column_session now (f s)) &&
          db.users.any (fun v => v.id == (f s).user_id)) &&
      uniqueKeys (newSessions.map (fun s => s.id))
  then some { db with sessions := newSessions }
  else none

/-! ### Statement sequences -/

/-- One SQL statement against the schema. -/
inductive Op where
  | insUser (u : UserRow)
  | insSession (s : SessionRow)
  | insMessage (m : MessageRow)
  | delUser (uid : Nat)
  | delSession (sid : Nat)
  | delMessage (mid : Nat)
  | updUser (uid : Nat) (f : UserRow → UserRow)
  | updSession (sid : Nat) (f : SessionRow → SessionRow)

/-- Execute one statement at instant `now`; a failing statement leaves the
database unchanged. -/
def applyOp (now : Nat) (db : DB) : Op → DB
  | Op.insUser u => (insertUser u db).getD db
  | Op.insSession s => (insertSession s db).getD db
  | Op.insMessage m => (insertMessage m now db).getD db
  | Op.delUser uid => deleteUser uid now db
  | Op.delSession sid => deleteSession sid now db
  | Op.delMessage mid => deleteMessage mid now db
  | Op.updUser uid f => (updateUser uid f now db).getD db
  | Op.updSession sid f => (updateSession sid f now db).getD db

/-- Execute a timestamped statement sequence. -/
def runOps (db : DB) : List (Nat × Op) → DB
  | [] => db
  | (now, op) :: tr => runOps (applyOp now db op) tr

/-- The empty database. -/
def emptyDB : DB := ⟨[], [], []⟩

/-! ### The installed schema

The initialization script delimits the body of
`update_session_message_count` with a bare `$` (lines 164 and 181 of the
script) instead of `$$`.  A bare `$` is not valid PostgreSQL
dollar-quoting, so that `CREATE FUNCTION` raises a syntax error, and the
two `CREATE TRIGGER` statements naming the function fail as well (the
other function, `update_updated_at_column`, is correctly `$$`-quoted and
its triggers do exist).  The statements below model the schema that the
script actually creates: constraints, keys and cascades are unchanged,
but message inserts and deletes touch only the `messages` table and never
maintain `message_count`. -/

/-- `INSERT INTO messages` against the installed schema: no message-count
trigger exists, so the owning session row is untouched. -/
def insertMessageInstalled (m : MessageRow) (db : DB) : Option DB :=
  if messageChecks m && db.sessions.any (fun t => t.id == m.session_id) &&
      !(db.messages.any (fun t => t.id == m.id))
  then some { db with messages := db.messages ++ [m] }
  else none

/-- `DELETE FROM messages WHERE id = mid` against the installed schema:
rows are removed, no trigger fires. -/
def deleteMessageInstalled (mid : Nat) (db : DB) : DB :=
  { db with messages := db.messages.filter (fun r => !(r.id == mid)) }

/-- `DELETE FROM sessions WHERE id = sid` against the installed schema:
the `ON DELETE CASCADE` clause still removes the session's messages, but
the cascaded deletions fire no message-count trigger. -/
def deleteSessionInstalled (sid : Nat) (db : DB) : DB :=
  { db with
    sessions := db.sessions.filter (fun s => !(s.id == sid)),
    messages := db.messages.filter (fun r => !(r.session_id == sid)) }

/-- `DELETE FROM users WHERE id = uid` against the installed schema. -/
def deleteUserInstalled (uid : Nat) (db : DB) : DB :=
  let removedSessions := db.sessions.filter (fun s => s.user_id == uid)
  { users := db.users.filter (fun v => !(v.id == uid)),
    sessions := db.sessions.filter (fun s => !(s.user_id == uid)),
    messages := db.messages.filter
      (fun r => !(removedSessions.any (fun s => s.id == r.session_id))) }

/-- Execute one statement against the installed schema. -/
def applyOpInstalled (now : Nat) (db : DB) : Op → DB
  | Op.insUser u => (insertUser u db).getD db
  | Op.insSession s => (insertSession s db).getD db
  | Op.insMessage m => (insertMessageInstalled m db).getD db
  | Op.delUser uid => deleteUserInstalled uid db
  | Op.delSession sid => deleteSessionInstalled sid db
  | Op.delMessage mid => deleteMessageInstalled mid db
  | Op.updUser uid f => (updateUser uid f now db).getD db
  | Op.updSession sid f => (updateSession sid f now db).getD db

/-- Execute a timestamped statement sequence against the installed schema. -/
def runOpsInstalled (db : DB) : List (Nat × Op) → DB
  | [] => db
  | (now, op) :: tr => runOpsInstalled (applyOpInstalled now db op) tr

/-- First `sessions` row with the given id (lookup `WHERE id = S`). -/
def findSession (S : Nat) (db : DB) : Option SessionRow :=
  db.sessions.find? (fun s => s.id == S)

/-- Number of stored messages referencing session `S`. -/
def msgCountS (S : Nat) (db : DB) : Nat :=
  db.messages.countP (fun r => r.session_id == S)

/-- Statements that only insert into or delete from `messages`. -/
def isMsgOp : Op → Bool
  | Op.insMessage _ => true
  | Op.delMessage _ => true
  | _ => false

/-- Number of inserts performed on messages referencing `S` along a
statement sequence: an insert counts when it references `S` and actually
succeeds. -/
def insCountS (S : Nat) : DB → List (Nat × Op) → Nat
  | _, [] => 0
  | db, (now, op) :: tr =>
      (match op with
       | Op.insMessage m =>
           if m.session_id == S && (insertMessage m now db).isSome then 1 else 0
       | _ => 0) + insCountS S (applyOp now db op) tr

/-- Number of deletes performed on messages referencing `S` along a
statement sequence: each delete statement counts the rows it actually
removes that reference `S`. -/
def delCountS (S : Nat) : DB → List (Nat × Op) → Nat
  | _, [] => 0
  | db, (now, op) :: tr =>
      (match op with
       | Op.delMessage mid =>
           db.messages.countP (fun r => r.session_id == S && r.id == mid)
       | _ => 0) + delCountS S (applyOp now db op) tr

/-! ### Concrete fixtures used by the witnesses -/

/-- A valid session row with id 1 owned by user 1. -/
def exSession : SessionRow :=
  ⟨1, 1, "Chat Session", "conversation", "active", "TR", "EN", 0,
   none, none, true, none, 0, 0⟩

/-- A second valid session row with id 2 owned by user 2. -/
def exSession2 : SessionRow :=
  ⟨2, 2, "Chat Session", "conversation", "active", "TR", "EN", 0,
   none, none, true, none, 0, 0⟩

/-- A valid message row referencing session 1. -/
def exMessage : MessageRow := ⟨100, 1, "user", "hello", none, none, none, none, 0⟩

/-- A second valid message row referencing session 1. -/
def exMessage2 : MessageRow := ⟨101, 1, "user", "world", none, none, none, none, 0⟩

/-- A message row referencing session 2. -/
def exMessage3 : MessageRow := ⟨102, 2, "user", "other", none, none, none, none, 0⟩

/-- A message row whose content is spaces only. -/
def wsMsg : MessageRow := ⟨103, 1, "user", "   ", none, none, none, none, 0⟩

/-- A message row whose content is a single tab character: whitespace-only,
but not space-only. -/
def tabMsg : MessageRow := ⟨104, 1, "user", "\t", none, none, none, none, 0⟩

/-- A user row whose native and target languages coincide. -/
def sameLangUser : UserRow :=
  ⟨1, "demo_user", "demo@example.com", "h", true, "EN", "EN", "beginner", 0, 0⟩

/-- A user row with id 7 (owner of nothing in the fixtures). -/
def exUser : UserRow :=
  ⟨7, "demo_user", "demo@example.com", "h", true, "TR", "EN", "beginner", 0, 0⟩

/-- Database holding session 1 only. -/
def exDB1 : DB := ⟨[], [exSession], []⟩

/-- Database holding sessions 1 and 2 and one message per session. -/
def exDB2 : DB := ⟨[], [exSession, exSession2], [exMessage, exMessage3]⟩

/-- C3: a failed fetch appends exactly the optimistic user message followed
by one fallback bot message; the rest of the transcript is untouched. -/
theorem failed_fetch_fallback (st : ClientState) (out : FetchOutcome)
    (hfail : failedOutcome out = true) (hin : ¬ jsTrim st.inputValue = "") :
    (handleSubmit st out).1.messages =
      st.messages ++ [⟨st.inputValue, Sender.user⟩, ⟨fallbackText, Sender.bot⟩] := by
  cases out with
  | netError => simp [handleSubmit, hin]
  | response r =>
      have hok : r.ok = false := by
        simpa [failedOutcome] using hfail
      simp [handleSubmit, hin, hok]

/-- Witness for C3 at a concrete state and a concrete failed response. -/
theorem failed_fetch_fallback_witness :
    (handleSubmit ⟨[⟨"hello", Sender.bot⟩], "hi", none⟩
        (FetchOutcome.response ⟨false, "", none⟩)).1.messages =
      [⟨"hello", Sender.bot⟩] ++ [⟨"hi", Sender.user⟩, ⟨fallbackText, Sender.bot⟩] :=
  failed_fetch_fallback ⟨[⟨"hello", Sender.bot⟩], "hi", none⟩
    (FetchOutcome.response ⟨false, "", none⟩) (by decide) (by decide)

/-- C7: submitting empty or whitespace-only input performs no request and
changes nothing: the whole state (transcript, input, session id) is
returned unchanged and no request body is produced. -/
theorem empty_input_noop (st : ClientState) (out : FetchOutcome)
    (h : jsTrim st.inputValue = "") :
    handleSubmit st out = (st, []) := by
  simp [handleSubmit, h]

/-- Witness for C7 on whitespace-only input. -/
theorem empty_input_noop_witness :
    handleSubmit ⟨[], "  ", some "abc"⟩ FetchOutcome.netError = (⟨[], "  ", some "abc"⟩, []) :=
  empty_input_noop ⟨[], "  ", some "abc"⟩ FetchOutcome.netError (by decide)

lemma truthyOpt_none : truthyOpt none = false := rfl

lemma truthyOpt_eq_true {o : Option String} (h : truthyOpt o = true) :
    ∃ s, o = some s ∧ s ≠ "" := by
  cases o with
  | none => simp [truthyOpt] at h
  | some s =>
      refine ⟨s, rfl, ?_⟩
      simpa [truthyOpt] using h

lemma handleSubmit_sessionId_of_some (st : ClientState) (out : FetchOutcome)
    (s : String) (hs : st.sessionId = some s) (hne : s ≠ "") :
    (handleSubmit st out).1.sessionId = some s := by
  have hb : (s == "") = false := by simpa using hne
  cases hin : jsTrim st.inputValue == "" with
  | true => simpa [handleSubmit, hin] using hs
  | false =>
      cases out with
      | netError => simpa [handleSubmit, hin] using hs
      | response r =>
          cases hok : r.ok with
          | true => simp [handleSubmit, hin, hok, truthyOpt, hs, hb]
          | false => simpa [handleSubmit, hin, hok] using hs

lemma handleSubmit_sessionId_of_none (st : ClientState) (out : FetchOutcome)
    (hs : st.sessionId = none) :
    (handleSubmit st out).1.sessionId = none ∨
      ∃ r, out = FetchOutcome.response r ∧ r.ok = true ∧ truthyOpt r.session_id = true ∧
        (handleSubmit st out).1.sessionId = r.session_id := by
  cases hin : jsTrim st.inputValue == "" with
  | true => exact Or.inl (by simpa [handleSubmit, hin] using hs)
  | false =>
      cases out with
      | netError => exact Or.inl (by simpa [handleSubmit, hin] using hs)
      | response r =>
          cases hok : r.ok with
          | true =>
              cases ht : truthyOpt r.session_id with
              | true =>
                  exact Or.inr ⟨r, rfl, hok, ht,
                    by simp [handleSubmit, hin, hok, hs, ht, truthyOpt_none]⟩
              | false =>
                  exact Or.inl (by simp [handleSubmit, hin, hok, hs, ht, truthyOpt_none])
          | false => exact Or.inl (by simpa [handleSubmit, hin, hok] using hs)

lemma handleSubmit_sessionIdOk (st : ClientState) (out : FetchOutcome)
    (hok : sessionIdOk st) : sessionIdOk (handleSubmit st out).1 := by
  rcases hok with hnone | ⟨s, hs, hne⟩
  · rcases handleSubmit_sessionId_of_none st out hnone with h | ⟨r, _, _, ht, hset⟩
    · exact Or.inl h
    · rcases truthyOpt_eq_true ht with ⟨s, hsid, hne⟩
      exact Or.inr ⟨s, by rw [hset, hsid], hne⟩
  · exact Or.inr ⟨s, handleSubmit_sessionId_of_some st out s hs hne, hne⟩

lemma stepClient_sessionId_eq (st : ClientState) (inp : String) (out : FetchOutcome) :
    (stepClient st inp out).1.sessionId = (handleSubmit { st with inputValue := inp } out).1.sessionId := rfl

lemma runClient_sessionIdOk : ∀ (tr : List (String × FetchOutcome)) (st : ClientState),
    sessionIdOk st → sessionIdOk (runClient st tr)
  | [], st, h => h
  | (inp, out) :: tr, st, h => by
      refine runClient_sessionIdOk tr _ ?_
      exact handleSubmit_sessionIdOk { st with inputValue := inp } out h

lemma handleSubmit_body (st : ClientState) (out : FetchOutcome)
    (hok : sessionIdOk st) :
    ∀ b ∈ (handleSubmit st out).2, b.session_id = st.sessionId := by
  have hsid : (if truthyOpt st.sessionId then st.sessionId else none) = st.sessionId := by
    rcases hok with hnone | ⟨s, hs, hne⟩
    · simp [hnone, truthyOpt]
    · have hb : (s == "") = false := by simpa using hne
      simp [hs, truthyOpt, hb]
  cases hin : jsTrim st.inputValue == "" with
  | true => simp [handleSubmit, hin]
  | false =>
      cases out with
      | netError =>
          intro b hb
          simp only [handleSubmit, hin, Bool.false_eq_true, if_false, List.mem_singleton] at hb
          subst hb
          simpa using hsid
      | response r =>
          intro b hb
          cases hokr : r.ok with
          | true =>
              simp only [handleSubmit, hin, hokr, Bool.false_eq_true, if_false, if_true,
                List.mem_singleton] at hb
              subst hb
              simpa using hsid
          | false =>
              simp only [handleSubmit, hin, hokr, Bool.false_eq_true, if_false,
                List.mem_singleton] at hb
              subst hb
              simpa using hsid

/-- C10: the client session id is write-once.  It starts as `null`; from a
reachable state it is either still `null` or a non-empty string; once set
it is never changed by any later submit; a `null` state can only change to
the session id of a successful response that carries a truthy
`session_id`; and every request body sent from a reachable state carries
exactly the current session id (`none` meaning the field is omitted). -/
theorem session_id_write_once :
    clientInit.sessionId = none
    ∧ (∀ tr, sessionIdOk (runClient clientInit tr))
    ∧ (∀ tr s inp out, (runClient clientInit tr).sessionId = some s →
        (stepClient (runClient clientInit tr) inp out).1.sessionId = some s)
    ∧ (∀ tr inp out, (runClient clientInit tr).sessionId = none →
        (stepClient (runClient clientInit tr) inp out).1.sessionId = none ∨
        ∃ r, out = FetchOutcome.response r ∧ r.ok = true ∧ truthyOpt r.session_id = true ∧
          (stepClient (runClient clientInit tr) inp out).1.sessionId = r.session_id)
    ∧ (∀ tr inp out b, b ∈ (stepClient (runClient clientInit tr) inp out).2 →
        b.session_id = (runClient clientInit tr).sessionId) := by
  have hinit : sessionIdOk clientInit := Or.inl rfl
  refine ⟨rfl, fun tr => runClient_sessionIdOk tr clientInit hinit, ?_, ?_, ?_⟩
  · intro tr s inp out hs
    rcases runClient_sessionIdOk tr clientInit hinit with hnone | ⟨s1, hs1, hne1⟩
    · rw [hnone] at hs; exact absurd hs (by simp)
    · have : s1 = s := by rw [hs1] at hs; exact Option.some.inj hs
      subst this
      exact handleSubmit_sessionId_of_some _ out s1 hs1 hne1
  · intro tr inp out hnone
    exact handleSubmit_sessionId_of_none { runClient clientInit tr with inputValue := inp } out hnone
  · intro tr inp out b hb
    have hok : sessionIdOk { runClient clientInit tr with inputValue := inp } := by
      rcases runClient_sessionIdOk tr clientInit hinit with h | ⟨s, hs, hne⟩
      · exact Or.inl h
      · exact Or.inr ⟨s, hs, hne⟩
    exact handleSubmit_body _ out hok b hb

/-- Witness for C10: after one successful submit that returns a session id,
a later submit (here a failing one) leaves the session id unchanged. -/
theorem session_id_write_once_witness :
    (stepClient (runClient clientInit [("hi", FetchOutcome.response ⟨true, "reply", some "sess-1"⟩)])
        "more" FetchOutcome.netError).1.sessionId = some "sess-1" :=
  session_id_write_once.2.2.1 [("hi", FetchOutcome.response ⟨true, "reply", some "sess-1"⟩)]
    "sess-1" "more" FetchOutcome.netError (by decide)

/-! ## Relational schema (src/unnamed/part_000)

Rows mirror the table columns; `NOT NULL` columns are plain fields,
nullable ones `Option`.  UUIDs are modelled as `Nat` identifiers and
timestamps as `Nat` instants; `JSONB` documents are opaque `Option String`
payloads.  `message_count` is an SQL `INTEGER`, hence `Int`.
-/

/-! ## Characterisation of the statements -/

lemma length_pos_of_ne_empty (s : String) (h : s ≠ "") : 0 < s.length := by
  cases s with
  | mk data =>
      cases data with
      | nil => exact absurd rfl h
      | cons c cs => simp [String.length]

lemma insertUser_some {u : UserRow} {db db' : DB} (h : insertUser u db = some db') :
    userChecks u = true ∧ db' = { db with users := db.users ++ [u] } := by
  unfold insertUser at h
  split at h
  · rename_i hc
    simp only [Bool.and_eq_true] at hc
    exact ⟨hc.1, (Option.some.inj h).symm⟩
  · exact Option.noConfusion h

lemma insertSession_some {s : SessionRow} {db db' : DB}
    (h : insertSession s db = some db') :
    sessionChecks s = true ∧ db' = { db with sessions := db.sessions ++ [s] } := by
  unfold insertSession at h
  split at h
  · rename_i hc
    simp only [Bool.and_eq_true] at hc
    exact ⟨hc.1.1, (Option.some.inj h).symm⟩
  · exact Option.noConfusion h

lemma insertMessage_some {m : MessageRow} {now : Nat} {db db' : DB}
    (h : insertMessage m now db = some db') :
    messageChecks m = true ∧
      db' = { db with
              messages := db.messages ++ [m],
              sessions := update_session_message_count_insert m.session_id now db.sessions } := by
  unfold insertMessage at h
  split at h
  · rename_i hc
    simp only [Bool.and_eq_true] at hc
    exact ⟨hc.1.1, (Option.some.inj h).symm⟩
  · exact Option.noConfusion h

lemma updateUser_some {uid : Nat} {f : UserRow → UserRow} {now : Nat} {db db' : DB}
    (h : updateUser uid f now db = some db') :
    ((db.users.filter (fun r => r.id == uid)).all
        (fun r => userChecks (update_updated_at_column_user now (f r)))) = true ∧
      db' = { db with
              users := db.users.map
                (fun r => if r.id == uid then update_updated_at_column_user now (f r) else r) } := by
  unfold updateUser at h
  dsimp only at h
  split at h
  · rename_i hc
    simp only [Bool.and_eq_true] at hc
    exact ⟨hc.1.1.1, (Option.some.inj h).symm⟩
  · exact Option.noConfusion h

lemma updateSession_some {sid : Nat} {f : SessionRow → SessionRow} {now : Nat} {db db' : DB}
    (h : updateSession sid f now db = some db') :
    db' = { db with
            sessions := db.sessions.map
              (fun s => if s.id == sid then update_updated_at_column_session now (f s) else s) } := by
  unfold updateSession at h
  dsimp only at h
  split at h
  · exact (Option.some.inj h).symm
  · exact Option.noConfusion h

/-! ## C5: empty / space-only message content -/

/-- C5 (amended): a message whose content trims (in the SQL sense: spaces
stripped) to the empty string violates `messages_content_not_empty`, so
the insert statement fails and, as a statement, leaves the database
unchanged; content that does not trim to empty passes this constraint. -/
theorem space_only_content_rejected :
    (∀ (m : MessageRow) (now : Nat) (db : DB), sqlTrim m.content = "" →
        insertMessage m now db = none)
    ∧ (∀ (m : MessageRow) (now : Nat) (db : DB), sqlTrim m.content = "" →
        applyOp now db (Op.insMessage m) = db)
    ∧ (∀ m : MessageRow, sqlTrim m.content ≠ "" → messages_content_not_empty m = true) := by
  have h1 : ∀ (m : MessageRow) (now : Nat) (db : DB), sqlTrim m.content = "" →
      insertMessage m now db = none := by
    intro m now db h
    have hc : messages_content_not_empty m = false := by
      simp [messages_content_not_empty, h]
    simp [insertMessage, messageChecks, hc]
  refine ⟨h1, ?_, ?_⟩
  · intro m now db h
    simp [applyOp, h1 m now db h]
  · intro m h
    simp only [messages_content_not_empty, decide_eq_true_eq]
    exact length_pos_of_ne_empty _ h

/-- Witness for C5 (amended) at a space-only content. -/
theorem space_only_content_rejected_witness :
    insertMessage wsMsg 0 exDB1 = none :=
  space_only_content_rejected.1 wsMsg 0 exDB1 (by decide)

/-- Counterexample to C5 as stated: a tab-only content is whitespace-only,
yet `LENGTH(TRIM(content)) > 0` holds (PostgreSQL `TRIM` strips only
spaces), so the insert succeeds and the messages table changes. -/
theorem whitespace_content_accepted_cex :
    (insertMessage tabMsg 0 exDB1).isSome = true ∧ messages_content_not_empty tabMsg = true := by
  constructor <;> decide

/-! ## C6: native and target language must differ -/

/-- State of the `users` table in which every row satisfies
`users_different_languages`. -/
def usersLangOk (db : DB) : Prop :=
  ∀ u ∈ db.users, users_different_languages u = true

lemma usersLangOk_applyOp (now : Nat) (db : DB) (op : Op) (h : usersLangOk db) :
    usersLangOk (applyOp now db op) := by
  cases op with
  | insUser u =>
      simp only [applyOp]
      cases hi : insertUser u db with
      | none => simpa using h
      | some db' =>
          obtain ⟨hc, rfl⟩ := insertUser_some hi
          intro v hv
          rcases List.mem_append.1 hv with hv | hv
          · exact h v hv
          · have : v = u := by simpa using hv
            subst this
            simp only [userChecks, Bool.and_eq_true] at hc
            exact hc.1.2
  | insSession s =>
      simp only [applyOp]
      cases hi : insertSession s db with
      | none => simpa using h
      | some db' =>
          obtain ⟨_, rfl⟩ := insertSession_some hi
          exact h
  | insMessage m =>
      simp only [applyOp]
      cases hi : insertMessage m now db with
      | none => simpa using h
      | some db' =>
          obtain ⟨_, rfl⟩ := insertMessage_some hi
          exact h
  | delUser uid =>
      intro v hv
      exact h v (List.mem_filter.1 hv).1
  | delSession sid =>
      intro v hv
      exact h v hv
  | delMessage mid =>
      intro v hv
      exact h v hv
  | updUser uid f =>
      simp only [applyOp]
      cases hi : updateUser uid f now db with
      | none => simpa using h
      | some db' =>
          obtain ⟨hall, rfl⟩ := updateUser_some hi
          intro v hv
          rcases List.mem_map.1 hv with ⟨r, hr, rfl⟩
          by_cases hid : (r.id == uid) = true
          · rw [if_pos hid]
            have hr' : r ∈ db.users.filter (fun r => r.id == uid) :=
              List.mem_filter.2 ⟨hr, hid⟩
            have := List.all_eq_true.1 hall r hr'
            simp only [userChecks, Bool.and_eq_true] at this
            exact this.1.2
          · rw [if_neg hid]
            exact h r hr
  | updSession sid f =>
      simp only [applyOp]
      cases hi : updateSession sid f now db with
      | none => simpa using h
      | some db' =>
          rw [updateSession_some hi]
          exact h

lemma usersLangOk_runOps : ∀ (tr : List (Nat × Op)) (db : DB),
    usersLangOk db → usersLangOk (runOps db tr)
  | [], _, h => h
  | (now, op) :: tr, db, h =>
      usersLangOk_runOps tr (applyOp now db op) (usersLangOk_applyOp now db op h)

/-- C6: inserting a user whose native and target languages coincide
violates `users_different_languages`, so the statement fails and leaves
the database unchanged; consequently in any database reachable by
statement sequences from the empty one, every stored user has distinct
native and target languages. -/
theorem different_languages_enforced :
    (∀ (u : UserRow) (db : DB), u.native_language = u.target_language →
        insertUser u db = none)
    ∧ (∀ (u : UserRow) (now : Nat) (db : DB), u.native_language = u.target_language →
        applyOp now db (Op.insUser u) = db)
    ∧ (∀ (tr : List (Nat × Op)) (u : UserRow), u ∈ (runOps emptyDB tr).users →
        u.native_language ≠ u.target_language) := by
  have h1 : ∀ (u : UserRow) (db : DB), u.native_language = u.target_language →
      insertUser u db = none := by
    intro u db h
    have hc : users_different_languages u = false := by
      simp [users_different_languages, h]
    simp [insertUser, userChecks, hc]
  refine ⟨h1, ?_, ?_⟩
  · intro u now db h
    simp [applyOp, h1 u db h]
  · intro tr u hu
    have hok : usersLangOk (runOps emptyDB tr) :=
      usersLangOk_runOps tr emptyDB (by intro v hv; simp [emptyDB] at hv)
    have := hok u hu
    simpa [users_different_languages] using this

/-- Witness for C6: the sample user with `EN → EN` languages is rejected. -/
theorem different_languages_enforced_witness :
    insertUser sameLangUser emptyDB = none :=
  different_languages_enforced.1 sameLangUser emptyDB rfl

/-! ## C8: the updated_at trigger -/

/-- C8: the `update_updated_at_column` trigger function overwrites
`updated_at` with the current time and touches no other field, and every
successful `UPDATE` on `users` or `sessions` routes each affected row
through it. -/
theorem updated_at_trigger_frame :
    (∀ (now : Nat) (r : UserRow),
        (update_updated_at_column_user now r).updated_at = now ∧
        (update_updated_at_column_user now r).id = r.id ∧
        (update_updated_at_column_user now r).username = r.username ∧
        (update_updated_at_column_user now r).email = r.email ∧
        (update_updated_at_column_user now r).password_hash = r.password_hash ∧
        (update_updated_at_column_user now r).is_active = r.is_active ∧
        (update_updated_at_column_user now r).native_language = r.native_language ∧
        (update_updated_at_column_user now r).target_language = r.target_language ∧
        (update_updated_at_column_user now r).proficiency_level = r.proficiency_level ∧
        (update_updated_at_column_user now r).created_at = r.created_at)
    ∧ (∀ (now : Nat) (s : SessionRow),
        (update_updated_at_column_session now s).updated_at = now ∧
        (update_updated_at_column_session now s).id = s.id ∧
        (update_updated_at_column_session now s).user_id = s.user_id ∧
        (update_updated_at_column_session now s).title = s.title ∧
        (update_updated_at_column_session now s).session_type = s.session_type ∧
        (update_updated_at_column_session now s).status = s.status ∧
        (update_updated_at_column_session now s).source_language = s.source_language ∧
        (update_updated_at_column_session now s).target_language = s.target_language ∧
        (update_updated_at_column_session now s).message_count = s.message_count ∧
        (update_updated_at_column_session now s).mode = s.mode ∧
        (update_updated_at_column_session now s).level = s.level ∧
        (update_updated_at_column_session now s).is_active = s.is_active ∧
        (update_updated_at_column_session now s).summary = s.summary ∧
        (update_updated_at_column_session now s).created_at = s.created_at)
    ∧ (∀ (uid : Nat) (f : UserRow → UserRow) (now : Nat) (db db' : DB),
        updateUser uid f now db = some db' →
        db'.users = db.users.map
          (fun r => if r.id == uid then update_updated_at_column_user now (f r) else r))
    ∧ (∀ (sid : Nat) (f : SessionRow → SessionRow) (now : Nat) (db db' : DB),
        updateSession sid f now db = some db' →
        db'.sessions = db.sessions.map
          (fun s => if s.id == sid then update_updated_at_column_session now (f s) else s)) := by
  refine ⟨?_, ?_, ?_, ?_⟩
  · intro now r
    exact ⟨rfl, rfl, rfl, rfl, rfl, rfl, rfl, rfl, rfl, rfl⟩
  · intro now s
    exact ⟨rfl, rfl, rfl, rfl, rfl, rfl, rfl, rfl, rfl, rfl, rfl, rfl, rfl, rfl⟩
  · intro uid f now db db' h
    rw [(updateUser_some h).2]
  · intro sid f now db db' h
    rw [updateSession_some h]

/-- Witness for C8: a concrete successful update on a one-user database. -/
theorem updated_at_trigger_frame_witness :
    (DB.mk [update_updated_at_column_user 5 exUser] [] []).users =
      (DB.mk [exUser] [] []).users.map
        (fun r => if r.id == 7 then update_updated_at_column_user 5 ((fun v => v) r) else r) :=
  updated_at_trigger_frame.2.2.1 7 (fun v => v) 5 (DB.mk [exUser] [] [])
    (DB.mk [update_updated_at_column_user 5 exUser] [] []) (by decide)

/-! ## C2: per-statement effect of the message-count trigger -/

lemma find?_map_sessions (f : SessionRow → SessionRow) (hf : ∀ s, (f s).id = s.id)
    (S : Nat) : ∀ ss : List SessionRow,
    (ss.map f).find? (fun t => t.id == S) = (ss.find? (fun t => t.id == S)).map f := by
  intro ss
  induction ss with
  | nil => rfl
  | cons a as ih =>
      by_cases h : (a.id == S) = true
      · have hfa : ((f a).id == S) = true := by rw [hf a]; exact h
        have h1 : (f a :: as.map f).find? (fun t => t.id == S) = some (f a) :=
          List.find?_cons_of_pos _ hfa
        have h2 : (a :: as).find? (fun t => t.id == S) = some a :=
          List.find?_cons_of_pos _ h
        rw [List.map_cons, h1, h2]
        rfl
      · have hfa : ¬ ((f a).id == S) = true := by rw [hf a]; exact h
        have h1 : (f a :: as.map f).find? (fun t => t.id == S) =
            (as.map f).find? (fun t => t.id == S) :=
          List.find?_cons_of_neg _ hfa
        have h2 : (a :: as).find? (fun t => t.id == S) = as.find? (fun t => t.id == S) :=
          List.find?_cons_of_neg _ h
        rw [List.map_cons, h1, h2]
        exact ih

lemma bump_insert_id (sid now : Nat) (s : SessionRow) :
    (if s.id == sid then
        { s with message_count := s.message_count + 1, updated_at := now }
      else s).id = s.id := by
  split <;> rfl

lemma bump_delete_id (sid now : Nat) (s : SessionRow) :
    (if s.id == sid then
        { s with message_count := max (s.message_count - 1) 0, updated_at := now }
      else s).id = s.id := by
  split <;> rfl

lemma find?_some_beq {ss : List SessionRow} {S : Nat} {s : SessionRow}
    (h : ss.find? (fun t => t.id == S) = some s) : (s.id == S) = true := by
  have := List.find?_some h
  simpa using this

lemma find?_bump_insert (sid now : Nat) (ss : List SessionRow) (s : SessionRow)
    (h : ss.find? (fun t => t.id == sid) = some s) :
    (update_session_message_count_insert sid now ss).find? (fun t => t.id == sid) =
      some { s with message_count := s.message_count + 1, updated_at := now } := by
  unfold update_session_message_count_insert
  rw [find?_map_sessions _ (fun t => bump_insert_id sid now t) sid ss, h]
  have he : s.id = sid := by simpa using find?_some_beq h
  simp [he]

lemma find?_bump_delete (sid now : Nat) (ss : List SessionRow) (s : SessionRow)
    (h : ss.find? (fun t => t.id == sid) = some s) :
    (update_session_message_count_delete sid now ss).find? (fun t => t.id == sid) =
      some { s with message_count := max (s.message_count - 1) 0, updated_at := now } := by
  unfold update_session_message_count_delete
  rw [find?_map_sessions _ (fun t => bump_delete_id sid now t) sid ss, h]
  have he : s.id = sid := by simpa using find?_some_beq h
  simp [he]

/-- Intended per-statement effect of the message-count trigger, as
transcribed from the never-created function body: a successful insert
would increment the owning session's `message_count` by exactly one and
stamp `updated_at`; a delete removing one row would decrement the counter
floored at zero and stamp `updated_at`.  The installed schema lacks this
behaviour (bare-`$` dollar-quoting kills the `CREATE FUNCTION`). -/
theorem message_count_trigger_effect :
    (∀ (m : MessageRow) (now : Nat) (db db' : DB) (s : SessionRow),
        insertMessage m now db = some db' →
        findSession m.session_id db = some s →
        findSession m.session_id db' =
          some { s with message_count := s.message_count + 1, updated_at := now })
    ∧ (∀ (mid now : Nat) (db : DB) (r : MessageRow) (s : SessionRow),
        db.messages.filter (fun t => t.id == mid) = [r] →
        findSession r.session_id db = some s →
        findSession r.session_id (deleteMessage mid now db) =
          some { s with message_count := max (s.message_count - 1) 0, updated_at := now }) := by
  constructor
  · intro m now db db' s hins hfind
    obtain ⟨_, rfl⟩ := insertMessage_some hins
    unfold findSession at hfind ⊢
    exact find?_bump_insert m.session_id now db.sessions s hfind
  · intro mid now db r s hrem hfind
    unfold deleteMessage
    unfold findSession at hfind ⊢
    dsimp only
    rw [hrem]
    exact find?_bump_delete r.session_id now db.sessions s hfind

/-- C2 (code_bug): the `CREATE FUNCTION update_session_message_count`
statement delimits its body with a bare `$` instead of `$$` — invalid
PostgreSQL dollar-quoting — so the function and the two triggers that
call it are never created.  Against the schema that actually installs, a
message insert leaves the `sessions` table bit-for-bit unchanged (the
fresh owning session keeps counter 0 and its old `updated_at`), and a
subsequent message delete leaves it unchanged as well, contradicting the
claimed increment/decrement-and-stamp behaviour. -/
theorem insert_delete_do_not_touch_counter :
    ((insertMessageInstalled exMessage exDB1).getD exDB1).sessions = [exSession] ∧
    (deleteMessageInstalled 100
        ((insertMessageInstalled exMessage exDB1).getD exDB1)).sessions = [exSession] ∧
    exSession.message_count = 0 ∧ exSession.updated_at = 0 := by
  refine ⟨by decide, by decide, by decide, by decide⟩

/-! ## C4: cascading deletes -/

lemma mem_decr_fold (now : Nat) :
    ∀ (L : List MessageRow) (ss : List SessionRow) (t : SessionRow),
      t ∈ L.foldl (fun acc r => update_session_message_count_delete r.session_id now acc) ss →
      ∃ s ∈ ss, t.id = s.id ∧ t.user_id = s.user_id := by
  intro L
  induction L with
  | nil => intro ss t h; exact ⟨t, h, rfl, rfl⟩
  | cons r L ih =>
      intro ss t h
      rcases ih _ t h with ⟨v, hv, hid, huid⟩
      rcases List.mem_map.1 hv with ⟨s, hs, rfl⟩
      refine ⟨s, hs, ?_, ?_⟩
      · rw [hid]; split <;> rfl
      · rw [huid]; split <;> rfl

/-- C4: deleting a user removes the user row, every session of that user
and every message of those sessions; deleting a session removes the
session and every message referencing it.  After the statement no
surviving session references the deleted user and no surviving message
references a deleted session. -/
theorem delete_cascade :
    (∀ (uid now : Nat) (db : DB),
        (∀ v ∈ (deleteUser uid now db).users, v.id ≠ uid) ∧
        (∀ t ∈ (deleteUser uid now db).sessions, t.user_id ≠ uid) ∧
        (∀ m ∈ (deleteUser uid now db).messages, ∀ s ∈ db.sessions,
            s.user_id = uid → m.session_id ≠ s.id))
    ∧ (∀ (sid now : Nat) (db : DB),
        (∀ t ∈ (deleteSession sid now db).sessions, t.id ≠ sid) ∧
        (∀ m ∈ (deleteSession sid now db).messages, m.session_id ≠ sid)) := by
  constructor
  · intro uid now db
    refine ⟨?_, ?_, ?_⟩
    · intro v hv
      have := (List.mem_filter.1 hv).2
      simpa using this
    · intro t ht
      rcases mem_decr_fold now _ _ t ht with ⟨s, hs, _, huid⟩
      have := (List.mem_filter.1 hs).2
      rw [huid]
      simpa using this
    · intro m hm s hs hsu
      have hnot := (List.mem_filter.1 hm).2
      simp only [Bool.not_eq_eq_eq_not, Bool.not_true, List.any_eq_false] at hnot
      have hsrem : s ∈ db.sessions.filter (fun s => s.user_id == uid) :=
        List.mem_filter.2 ⟨hs, by simp [hsu]⟩
      have := hnot s hsrem
      intro hcontra
      rw [hcontra] at this
      simp at this
  · intro sid now db
    constructor
    · intro t ht
      rcases mem_decr_fold now _ _ t ht with ⟨s, hs, hid, _⟩
      have := (List.mem_filter.1 hs).2
      rw [hid]
      simpa using this
    · intro m hm
      have := (List.mem_filter.1 hm).2
      simpa using this

/-- Witness for C4 on the two-user fixture database: after deleting user 1,
the surviving session is user 2's, and the surviving message does not
reference the removed session. -/
theorem delete_cascade_witness :
    (exSession2.user_id ≠ 1) ∧ (exMessage3.session_id ≠ exSession.id) :=
  ⟨(delete_cascade.1 1 9 exDB2).2.1 exSession2 (by decide),
   (delete_cascade.1 1 9 exDB2).2.2 exMessage3 (by decide) exSession (by decide) rfl⟩

/-! ## C1: the message-count invariant -/

lemma countP_split {α : Type} (p q : α → Bool) : ∀ l : List α,
    l.countP p = l.countP (fun a => p a && q a) + l.countP (fun a => p a && !(q a)) := by
  intro l
  induction l with
  | nil => rfl
  | cons a l ih =>
      simp only [List.countP_cons]
      cases hp : p a <;> cases hq : q a <;> simp [hp, hq] <;> omega

lemma countP_and_le {α : Type} (p q : α → Bool) : ∀ l : List α,
    l.countP (fun a => p a && q a) ≤ l.countP p := by
  intro l
  induction l with
  | nil => simp
  | cons a l ih =>
      simp only [List.countP_cons]
      cases hp : p a <;> cases hq : q a <;> simp [hp, hq] <;> omega

lemma foldl_decr_find (S now : Nat) :
    ∀ (L : List MessageRow) (ss : List SessionRow) (s : SessionRow),
      ss.find? (fun t => t.id == S) = some s →
      ((L.countP (fun r => r.session_id == S) : Int)) ≤ s.message_count →
      ∃ s', (L.foldl (fun acc r => update_session_message_count_delete r.session_id now acc)
              ss).find? (fun t => t.id == S) = some s' ∧
            s'.message_count =
              s.message_count - (L.countP (fun r => r.session_id == S) : Int) := by
  intro L
  induction L with
  | nil =>
      intro ss s hf _
      exact ⟨s, hf, by simp⟩
  | cons r L ih =>
      intro ss s hf hle
      simp only [List.foldl_cons]
      by_cases hrs : (r.session_id == S) = true
      · have hreq : r.session_id = S := by simpa using hrs
        subst hreq
        have hcnt : (r :: L).countP (fun t => t.session_id == r.session_id) =
            L.countP (fun t => t.session_id == r.session_id) + 1 := by
          simp [List.countP_cons]
        rw [hcnt] at hle
        have hone : (1 : Int) ≤ s.message_count := by omega
        have hmax : max (s.message_count - 1) 0 = s.message_count - 1 :=
          max_eq_left (by omega)
        have hf1 := find?_bump_delete r.session_id now ss s hf
        obtain ⟨s', hf', hc'⟩ := ih _ _ hf1 (by simp only [hmax]; omega)
        refine ⟨s', hf', ?_⟩
        rw [hc']
        simp only [hmax, hcnt]
        push_cast
        ring
      · have hreq : (r.session_id == S) = false := by simpa using hrs
        have hcnt : (r :: L).countP (fun r => r.session_id == S) =
            L.countP (fun r => r.session_id == S) := by
          simp [List.countP_cons, hreq]
        have hf1 : (update_session_message_count_delete r.session_id now ss).find?
            (fun t => t.id == S) = some s := by
          unfold update_session_message_count_delete
          rw [find?_map_sessions _ (fun t => bump_delete_id r.session_id now t) S ss, hf]
          have hsid : s.id = S := by simpa using find?_some_beq hf
          have hne2 : s.id ≠ r.session_id := by
            rw [hsid]
            simp only [beq_eq_false_iff_ne] at hreq
            exact fun h => hreq h.symm
          simp [hne2]
        obtain ⟨s', hf', hc'⟩ := ih _ _ hf1 (by rw [hcnt] at hle; exact hle)
        exact ⟨s', hf', by rw [hc', hcnt]⟩

lemma msg_ops_inv (S : Nat) :
    ∀ (tr : List (Nat × Op)) (db : DB) (s : SessionRow),
      (∀ p ∈ tr, isMsgOp p.2 = true) →
      findSession S db = some s →
      s.message_count = (msgCountS S db : Int) →
      ∃ s', findSession S (runOps db tr) = some s' ∧
            s'.message_count = (msgCountS S (runOps db tr) : Int) ∧
            (msgCountS S (runOps db tr) : Int) =
              (msgCountS S db : Int) + insCountS S db tr - delCountS S db tr := by
  intro tr
  induction tr with
  | nil =>
      intro db s _ hf hc
      exact ⟨s, hf, hc, by simp [runOps, insCountS, delCountS]⟩
  | cons p tr ih =>
      intro db s hops hf hc
      obtain ⟨now, op⟩ := p
      have hop : isMsgOp op = true := hops (now, op) (List.mem_cons_self _ _)
      have hops' : ∀ q ∈ tr, isMsgOp q.2 = true := fun q hq =>
        hops q (List.mem_cons_of_mem _ hq)
      cases op with
      | insMessage m =>
          cases hins : insertMessage m now db with
          | none =>
              have hrun : runOps db ((now, Op.insMessage m) :: tr) = runOps db tr := by
                simp [runOps, applyOp, hins]
              have hinsEq : insCountS S db ((now, Op.insMessage m) :: tr) =
                  insCountS S db tr := by
                simp [insCountS, applyOp, hins]
              have hdelEq : delCountS S db ((now, Op.insMessage m) :: tr) =
                  delCountS S db tr := by
                simp [delCountS, applyOp, hins]
              obtain ⟨s', hf', hc', heq⟩ := ih db s hops' hf hc
              exact ⟨s', by rw [hrun]; exact hf', by rw [hrun]; exact hc',
                by rw [hrun, hinsEq, hdelEq]; exact heq⟩
          | some db' =>
              obtain ⟨_, hdb'⟩ := insertMessage_some hins
              have hrun : runOps db ((now, Op.insMessage m) :: tr) = runOps db' tr := by
                simp [runOps, applyOp, hins]
              have hdelEq : delCountS S db ((now, Op.insMessage m) :: tr) =
                  delCountS S db' tr := by
                simp [delCountS, applyOp, hins]
              by_cases hms : (m.session_id == S) = true
              · have hmeq : m.session_id = S := by simpa using hms
                subst hmeq
                have hinsEq : insCountS m.session_id db ((now, Op.insMessage m) :: tr) =
                    1 + insCountS m.session_id db' tr := by
                  simp [insCountS, applyOp, hins]
                have hf1 : findSession m.session_id db' =
                    some { s with message_count := s.message_count + 1, updated_at := now } := by
                  rw [hdb']
                  unfold findSession at hf ⊢
                  dsimp only
                  exact find?_bump_insert m.session_id now db.sessions s hf
                have hmc1 : msgCountS m.session_id db' = msgCountS m.session_id db + 1 := by
                  rw [hdb']
                  unfold msgCountS
                  dsimp only
                  simp [List.countP_append, List.countP_cons]
                obtain ⟨s', hf', hc', heq⟩ := ih db' _ hops' hf1 (by
                  simp only []
                  rw [hmc1, hc]
                  push_cast
                  ring)
                refine ⟨s', by rw [hrun]; exact hf', by rw [hrun]; exact hc', ?_⟩
                rw [hrun, hinsEq, hdelEq]
                rw [hmc1] at heq
                push_cast at heq ⊢
                omega
              · have hms' : (m.session_id == S) = false := by simpa using hms
                have hinsEq : insCountS S db ((now, Op.insMessage m) :: tr) =
                    insCountS S db' tr := by
                  simp [insCountS, applyOp, hins, hms']
                have hf1 : findSession S db' = some s := by
                  rw [hdb']
                  unfold findSession at hf ⊢
                  dsimp only
                  unfold update_session_message_count_insert
                  rw [find?_map_sessions _ (fun t => bump_insert_id m.session_id now t) S
                    db.sessions, hf]
                  have hsid : s.id = S := by simpa using find?_some_beq hf
                  have hne2 : s.id ≠ m.session_id := by
                    rw [hsid]
                    simp only [beq_eq_false_iff_ne] at hms'
                    exact fun h => hms' h.symm
                  simp [hne2]
                have hmc1 : msgCountS S db' = msgCountS S db := by
                  rw [hdb']
                  unfold msgCountS
                  dsimp only
                  simp [List.countP_append, List.countP_cons, hms']
                obtain ⟨s', hf', hc', heq⟩ := ih db' _ hops' hf1 (by rw [hmc1]; exact hc)
                refine ⟨s', by rw [hrun]; exact hf', by rw [hrun]; exact hc', ?_⟩
                rw [hrun, hinsEq, hdelEq]
                rw [hmc1] at heq
                exact heq
      | delMessage mid =>
          have hrun : runOps db ((now, Op.delMessage mid) :: tr) =
              runOps (deleteMessage mid now db) tr := by
            simp [runOps, applyOp]
          have hinsEq : insCountS S db ((now, Op.delMessage mid) :: tr) =
              insCountS S (deleteMessage mid now db) tr := by
            simp [insCountS, applyOp]
          have hdelEq : delCountS S db ((now, Op.delMessage mid) :: tr) =
              db.messages.countP (fun r => r.session_id == S && r.id == mid) +
                delCountS S (deleteMessage mid now db) tr := by
            simp [delCountS, applyOp]
          have hsess : (deleteMessage mid now db).sessions =
              (db.messages.filter (fun r => r.id == mid)).foldl
                (fun acc r => update_session_message_count_delete r.session_id now acc)
                db.sessions := rfl
          have hmsgs : (deleteMessage mid now db).messages =
              db.messages.filter (fun r => !(r.id == mid)) := rfl
          have hremcnt : (db.messages.filter (fun r => r.id == mid)).countP
              (fun r => r.session_id == S) =
              db.messages.countP (fun r => r.session_id == S && r.id == mid) :=
            List.countP_filter ..
          have hkle : db.messages.countP (fun r => r.session_id == S && r.id == mid) ≤
              msgCountS S db :=
            countP_and_le _ _ _
          obtain ⟨s1, hf1, hc1⟩ := foldl_decr_find S now
            (db.messages.filter (fun r => r.id == mid)) db.sessions s hf
            (by rw [hremcnt, hc]; omega)
          have hmc1 : msgCountS S (deleteMessage mid now db) =
              msgCountS S db -
                db.messages.countP (fun r => r.session_id == S && r.id == mid) := by
            unfold msgCountS
            rw [hmsgs]
            have hsplit : db.messages.countP (fun r => r.session_id == S) =
                db.messages.countP (fun r => r.session_id == S && r.id == mid) +
                  db.messages.countP (fun r => r.session_id == S && !(r.id == mid)) :=
              countP_split (fun r => r.session_id == S) (fun r => r.id == mid) db.messages
            have hfil : (db.messages.filter (fun r => !(r.id == mid))).countP
                (fun r => r.session_id == S) =
                db.messages.countP (fun r => r.session_id == S && !(r.id == mid)) :=
              List.countP_filter ..
            rw [hfil]
            omega
          have hfind1 : findSession S (deleteMessage mid now db) = some s1 := by
            unfold findSession
            rw [hsess]
            exact hf1
          obtain ⟨s', hf', hc', heq⟩ := ih (deleteMessage mid now db) s1 hops' hfind1 (by
            rw [hc1, hremcnt, hmc1, hc]
            have := hkle
            omega)
          refine ⟨s', by rw [hrun]; exact hf', by rw [hrun]; exact hc', ?_⟩
          rw [hrun, hinsEq, hdelEq]
          rw [hmc1] at heq
          have := hkle
          push_cast at heq ⊢
          omega
      | insUser u => simp [isMsgOp] at hop
      | insSession t => simp [isMsgOp] at hop
      | delUser uid => simp [isMsgOp] at hop
      | delSession sid => simp [isMsgOp] at hop
      | updUser uid f => simp [isMsgOp] at hop
      | updSession sid f => simp [isMsgOp] at hop

/-- Intended message-count invariant: had the trigger been created,
starting from a freshly created session `S` (counter 0, no stored
messages referencing it), any sequence of message inserts and deletes
would leave `message_count = max 0 (inserts - deletes)`, counting the
operations actually performed on messages referencing `S`.  This is the
behaviour the spec describes; the installed schema does not have it. -/
theorem message_count_invariant (S : Nat) (db : DB) (tr : List (Nat × Op)) (s : SessionRow)
    (hops : ∀ p ∈ tr, isMsgOp p.2 = true)
    (hfind : findSession S db = some s)
    (hzero : s.message_count = 0)
    (hempty : msgCountS S db = 0) :
    ∃ s', findSession S (runOps db tr) = some s' ∧
      s'.message_count = max 0 ((insCountS S db tr : Int) - (delCountS S db tr : Int)) := by
  obtain ⟨s', hf', hc', heq⟩ := msg_ops_inv S tr db s hops hfind
    (by rw [hzero, hempty]; simp)
  refine ⟨s', hf', ?_⟩
  have hge : (0 : Int) ≤ (insCountS S db tr : Int) - (delCountS S db tr : Int) := by
    rw [hempty] at heq
    have h0 : (0 : Int) ≤ (msgCountS S (runOps db tr) : Int) := Int.natCast_nonneg _
    omega
  rw [hc', heq, hempty, max_eq_right hge]
  push_cast
  ring

/-- C1 (code_bug): because the bare-`$` dollar-quoting makes the
`CREATE FUNCTION update_session_message_count` statement fail, the
message-count triggers are never created, and `message_count` stays at
its default no matter what happens to `messages`.  Concretely: on the
installed schema, two message inserts followed by one message delete on a
freshly created session leave its counter at 0, whereas the claim (and
the evident intent of the function body) requires
`max 0 (2 - 1) = 1`. -/
theorem message_count_not_maintained :
    findSession 1 (runOpsInstalled exDB1
        [(10, Op.insMessage exMessage), (11, Op.insMessage exMessage2),
         (12, Op.delMessage 100)]) = some exSession ∧
    exSession.message_count = 0 ∧
    max 0 ((2 : Int) - 1) = 1 := by
  refine ⟨by decide, by decide, by decide⟩

end Chatbot
